import Mathlib

/-
  Shallow embedding of the twine infinite-canvas core:
  the blocks/connections entity stores (src/stores/blocksStore.ts,
  src/stores/connectionsStore.ts) and the pointer interaction handlers of the
  CanvasApp component (drag, resize, connect, double-click-to-edit, paste).
  World coordinates and sizes are JavaScript numbers; they are modelled as
  rationals.  Timestamps (Date.now()) are naturals; the JS subtraction
  "now - lastClickTime" is modelled as integer subtraction.
-/

namespace Twine

/-- World-space point, as used for positions and pointer locations. -/
structure Pos where
  x : ℚ
  y : ℚ
deriving DecidableEq, Repr

/-- Width and height of a block. -/
structure Size where
  width : ℚ
  height : ℚ
deriving DecidableEq, Repr

/-- The type field of a block: text | image | drawing | voice. -/
inductive BlockType where
  | text
  | image
  | drawing
  | voice
deriving DecidableEq, Repr

/-- Content payload of a text block: text, fontSize, color. -/
structure TextContent where
  text : String
  fontSize : ℚ
  color : String
deriving DecidableEq, Repr

/-- Content payload of an image block: url and originalSize. -/
structure ImageContent where
  url : String
  originalSize : Size
deriving DecidableEq, Repr

/-- Variant content payload of a block (tagged form of the loose content field). -/
inductive Content where
  | text (c : TextContent)
  | image (c : ImageContent)
deriving DecidableEq, Repr

/-- A block as in src/types/canvas.ts. -/
structure Block where
  id : String
  type : BlockType
  content : Content
  position : Pos
  size : Size
  selected : Bool
  locked : Bool
  visible : Bool
deriving DecidableEq, Repr

/-- State of the zustand blocks store: blocks list and selectedBlockIds set.
    The JS Set of ids is modelled as a duplicate-free-by-use list with
    membership, insertion and removal. -/
structure BlocksState where
  blocks : List Block
  selectedBlockIds : List String
deriving DecidableEq, Repr

/-- Set.add on the id set: a no-op when the id is already present. -/
def setAdd (l : List String) (id : String) : List String :=
  if l.contains id then l else l ++ [id]

/-- Set.delete on the id set (also the filter used by deleteBlock). -/
def setDelete (l : List String) (id : String) : List String :=
  l.filter (fun x => x != id)

/-- addBlock: appends the given block to the blocks list. -/
def addBlock (s : BlocksState) (b : Block) : BlocksState :=
  { s with blocks := s.blocks ++ [b] }

/-- updateBlock instantiated at a content-only patch, the only patch shape the
    edit handlers use: merges the new content into the matching block. -/
def updateBlockContent (s : BlocksState) (id : String) (c : Content) : BlocksState :=
  { s with blocks := s.blocks.map (fun b => if b.id == id then { b with content := c } else b) }

/-- deleteBlock: filters the block out of the list and its id out of the
    selection set.  Nothing else is touched. -/
def deleteBlock (s : BlocksState) (id : String) : BlocksState :=
  { blocks := s.blocks.filter (fun b => b.id != id),
    selectedBlockIds := setDelete s.selectedBlockIds id }

/-- selectBlock(id, multi): builds the new selection set and rewrites every
    block's selected flag from membership in that set. -/
def selectBlock (s : BlocksState) (id : String) (multi : Bool) : BlocksState :=
  let base := if multi then s.selectedBlockIds else []
  let newSelected := if multi && base.contains id then setDelete base id else setAdd base id
  { selectedBlockIds := newSelected,
    blocks := s.blocks.map (fun b => { b with selected := newSelected.contains b.id }) }

/-- deselectAll: clears the set and every selected flag. -/
def deselectAll (s : BlocksState) : BlocksState :=
  { selectedBlockIds := [],
    blocks := s.blocks.map (fun b => { b with selected := false }) }

/-- moveBlock(id, x, y). -/
def moveBlock (s : BlocksState) (id : String) (x y : ℚ) : BlocksState :=
  { s with blocks := s.blocks.map (fun b =>
      if b.id == id then { b with position := { x := x, y := y } } else b) }

/-- resizeBlock(id, width, height): clamps both components with Math.max(50, v). -/
def resizeBlock (s : BlocksState) (id : String) (width height : ℚ) : BlocksState :=
  { s with blocks := s.blocks.map (fun b =>
      if b.id == id then { b with size := { width := max 50 width, height := max 50 height } } else b) }

/-- createTextBlock helper.  The random id is passed in as a parameter.  The
    JS default and the falsy check (text or New Note) are modelled by the
    empty-string test; the size is Math.max(200,100) by Math.max(100,50). -/
def createTextBlock (id : String) (x y : ℚ) (text : String) : Block :=
  { id := id
    type := BlockType.text
    content := Content.text
      { text := if text == "" then "New Note" else text, fontSize := 16, color := "#ffffff" }
    position := { x := x, y := y }
    size := { width := max 200 100, height := max 100 50 }
    selected := false
    locked := false
    visible := true }

/-- createImageBlock helper: clamps width and height with Math.max(v, 50). -/
def createImageBlock (id : String) (x y : ℚ) (url : String) (width height : ℚ) : Block :=
  let safeWidth := max width 50
  let safeHeight := max height 50
  { id := id
    type := BlockType.image
    content := Content.image
      { url := url, originalSize := { width := safeWidth, height := safeHeight } }
    position := { x := x, y := y }
    size := { width := safeWidth, height := safeHeight }
    selected := false
    locked := false
    visible := true }

/-- Connection type field: straight | curved. -/
inductive ConnType where
  | straight
  | curved
deriving DecidableEq, Repr

/-- A connection as in src/types/canvas.ts (from is a Lean keyword, hence from_). -/
structure Connection where
  id : String
  from_ : String
  to_ : String
  type : ConnType
deriving DecidableEq, Repr

/-- State of the zustand connections store. -/
structure ConnectionsState where
  connections : List Connection
  connectionMode : Bool
  connectingFrom : Option String
deriving DecidableEq, Repr

/-- True when the connection has the given block id at either endpoint. -/
def connReferences (c : Connection) (blockId : String) : Bool :=
  c.from_ == blockId || c.to_ == blockId

/-- The existence check inside addConnection: some equivalent ordered or
    reversed pair is already present. -/
def connPairExists (l : List Connection) (f t : String) : Bool :=
  l.any (fun c => (c.from_ == f && c.to_ == t) || (c.from_ == t && c.to_ == f))

/-- addConnection(from, to): no-op on self-links and on duplicate unordered
    pairs; otherwise appends a curved connection and clears
    connectingFrom/connectionMode.  The random id is a parameter. -/
def addConnection (s : ConnectionsState) (newId f t : String) : ConnectionsState :=
  if f == t then s
  else if connPairExists s.connections f t then s
  else
    { connections := s.connections ++ [{ id := newId, from_ := f, to_ := t, type := ConnType.curved }]
      connectionMode := false
      connectingFrom := none }

/-- deleteConnection(id). -/
def deleteConnection (s : ConnectionsState) (id : String) : ConnectionsState :=
  { s with connections := s.connections.filter (fun c => c.id != id) }

/-- setConnectingFrom(blockId). -/
def setConnectingFrom (s : ConnectionsState) (blockId : Option String) : ConnectionsState :=
  { s with connectingFrom := blockId }

/-- Combined application state: the two stores.  deleteBlock is only ever
    invoked on the blocks store; no caller touches the connections store when
    a block is deleted. -/
structure AppState where
  blocksState : BlocksState
  connectionsState : ConnectionsState
deriving DecidableEq, Repr

/-- The app-level block deletion path (Delete/Backspace key handler): it calls
    only the blocks store deleteBlock. -/
def appDeleteBlock (a : AppState) (id : String) : AppState :=
  { a with blocksState := deleteBlock a.blocksState id }

/-- The connection renderer skips any connection whose from or to block is not
    found in the blocks list (if !fromBlock or !toBlock return). -/
def renderedConnections (blocks : List Block) (conns : List Connection) : List Connection :=
  conns.filter (fun c =>
    blocks.any (fun b => b.id == c.from_) && blocks.any (fun b => b.id == c.to_))

/-- The shift-held branch of the blockContainer pointerdown handler.  The JS
    falsy test on connectingFrom also treats the empty string as unset.  On a
    different block it runs addConnection then setConnectingFrom(null); on the
    same block it does nothing. -/
def shiftPointerDown (s : ConnectionsState) (blockId newConnId : String) : ConnectionsState :=
  match s.connectingFrom with
  | none => setConnectingFrom s (some blockId)
  | some f =>
      if f == "" then setConnectingFrom s (some blockId)
      else if f != blockId then setConnectingFrom (addConnection s newConnId f blockId) none
      else s

/-- Per-block-container gesture closure variables, as initialised at render
    time: isDragging, isResizing, dragging, dragStart, lastClickTime. -/
structure GestureState where
  isDragging : Bool
  isResizing : Bool
  dragging : Bool
  dragStart : Pos
  lastClickTime : Nat
deriving DecidableEq, Repr

/-- The values the closure variables hold when the render effect creates the
    handlers for a block. -/
def initialGesture : GestureState :=
  { isDragging := false, isResizing := false, dragging := false
    dragStart := { x := 0, y := 0 }, lastClickTime := 0 }

/-- The non-shift branch of the blockContainer pointerdown handler: select the
    block, record dragStart = world - block.position, arm the drag. -/
def blockPointerDownNormal (b : Block) (g : GestureState) (s : BlocksState)
    (multi : Bool) (world : Pos) : GestureState × BlocksState :=
  ({ g with
      dragStart := { x := world.x - b.position.x, y := world.y - b.position.y }
      isDragging := true
      dragging := false },
   selectBlock s b.id multi)

/-- The global viewport pointermove handler for a block: while a drag is
    armed, compute the new position, latch dragging once either component
    moved more than 5 world units from the captured block position, and commit
    the full position once dragging is latched.  The block argument is the
    render-time closure capture. -/
def handlePointerMove (b : Block) (g : GestureState) (s : BlocksState)
    (world : Pos) : GestureState × BlocksState :=
  if g.isDragging && !g.isResizing then
    let newX := world.x - g.dragStart.x
    let newY := world.y - g.dragStart.y
    let dragging :=
      if |newX - b.position.x| > 5 ∨ |newY - b.position.y| > 5 then true else g.dragging
    let g1 := { g with dragging := dragging }
    if dragging then (g1, moveBlock s b.id newX newY) else (g1, s)
  else (g, s)

/-- The global pointerup handler: ends an armed drag or resize; when the
    gesture was a non-drag click on a text block, runs the double-click test
    now - lastClickTime less than 300 and either starts editing (returned
    Bool) and resets lastClickTime to 0, or records now. -/
def handlePointerUp (b : Block) (g : GestureState) (now : Nat) : GestureState × Bool :=
  if g.isDragging || g.isResizing then
    let wasResizing := g.isResizing
    let g1 := { g with isDragging := false, isResizing := false }
    if !g.dragging && !wasResizing && b.type == BlockType.text then
      if (now : ℤ) - (g.lastClickTime : ℤ) < 300 then
        ({ g1 with lastClickTime := 0 }, true)
      else
        ({ g1 with lastClickTime := now }, false)
    else (g1, false)
  else (g, false)

/-- Corner tag parsed from the resize-handle label: br, tl, tr, bl. -/
inductive Corner where
  | br
  | tl
  | tr
  | bl
deriving DecidableEq, Repr

/-- resizeStart as recorded on resize-handle pointerdown: the block size and
    the world pointer position. -/
structure ResizeStart where
  width : ℚ
  height : ℚ
  x : ℚ
  y : ℚ
deriving DecidableEq, Repr

/-- The resize-handle pointerdown handler: arms resizing, disarms dragging,
    records resizeStart. -/
def resizePointerDown (b : Block) (g : GestureState) (world : Pos) :
    GestureState × ResizeStart :=
  ({ g with isResizing := true, isDragging := false },
   { width := b.size.width, height := b.size.height, x := world.x, y := world.y })

/-- The global handleResizeMove handler: corner-specific raw width, height,
    x, y from the deltas; Math.max(50, v) on both dimensions only; moveBlock
    when the position changed, then resizeBlock.  The block argument is the
    render-time closure capture. -/
def handleResizeMove (b : Block) (corner : Corner) (rs : ResizeStart)
    (isResizing : Bool) (s : BlocksState) (world : Pos) : BlocksState :=
  if !isResizing then s
  else
    let deltaX := world.x - rs.x
    let deltaY := world.y - rs.y
    let raw : ℚ × ℚ × ℚ × ℚ :=
      match corner with
      | Corner.br => (rs.width + deltaX, rs.height + deltaY, b.position.x, b.position.y)
      | Corner.tl => (rs.width - deltaX, rs.height - deltaY, b.position.x + deltaX, b.position.y + deltaY)
      | Corner.tr => (rs.width + deltaX, rs.height - deltaY, b.position.x, b.position.y + deltaY)
      | Corner.bl => (rs.width - deltaX, rs.height + deltaY, b.position.x + deltaX, b.position.y)
    let newWidth := max 50 raw.1
    let newHeight := max 50 raw.2.1
    let newX := raw.2.2.1
    let newY := raw.2.2.2
    let s1 := if newX != b.position.x || newY != b.position.y then moveBlock s b.id newX newY else s
    resizeBlock s1 b.id newWidth newHeight

/-- Edit-session data of startEditingSystemBlock: the edited block id, the
    render-time content capture used by every commit, and the live textarea
    value. -/
structure EditSession where
  blockId : String
  content0 : TextContent
  value : String
deriving DecidableEq, Repr

/-- Entering edit mode: the textarea is seeded with the captured text.  No
    snapshot of the store text is kept anywhere else. -/
def startEditingSystemBlock (b : Block) (c0 : TextContent) : EditSession :=
  { blockId := b.id, content0 := c0, value := c0.text }

/-- One textarea input event: immediately commits the typed value (or a single
    space when empty) into the store via updateBlock. -/
def editInput (s : BlocksState) (sess : EditSession) (v : String) :
    BlocksState × EditSession :=
  (updateBlockContent s sess.blockId
     (Content.text { sess.content0 with text := if v == "" then " " else v }),
   { sess with value := v })

/-- saveAndExit: commits the final textarea value once more and tears down. -/
def saveAndExit (s : BlocksState) (sess : EditSession) : BlocksState :=
  updateBlockContent s sess.blockId
    (Content.text { sess.content0 with text := if sess.value == "" then " " else sess.value })

/-- cancelAndExit: restores the hidden text element visibility and tears the
    textarea down.  It performs no store mutation whatsoever. -/
def cancelAndExit (s : BlocksState) (_sess : EditSession) : BlocksState :=
  s

/-- Keys the textarea keydown handler distinguishes. -/
inductive EditKey where
  | enter (shift : Bool)
  | escape
  | other
deriving DecidableEq, Repr

/-- The textarea keydown handler: Enter without shift saves and exits, Escape
    cancels and exits, everything else stays in edit mode.  The Bool is
    whether edit mode is still active afterwards. -/
def editKeyDown (s : BlocksState) (sess : EditSession) (k : EditKey) :
    BlocksState × Bool :=
  match k with
  | EditKey.enter false => (saveAndExit s sess, false)
  | EditKey.enter true => (s, true)
  | EditKey.escape => (cancelAndExit s sess, false)
  | EditKey.other => (s, true)

/-- Clipboard payloads the paste handler distinguishes, in its priority
    order: an image file (with decoded natural size), an HTML image, plain
    text, nothing usable. -/
inductive ClipboardPayload where
  | imageFile (naturalWidth naturalHeight : ℚ)
  | htmlImage (naturalWidth naturalHeight : ℚ)
  | plainText (text : String)
  | empty
deriving DecidableEq, Repr

/-- A sprite the paste handler adds directly to the viewport (anchor 0.5, so
    centerX/centerY is its center), with its displayed size after scaling. -/
structure PastedSprite where
  centerX : ℚ
  centerY : ℚ
  displayWidth : ℚ
  displayHeight : ℚ
deriving DecidableEq, Repr

/-- A raw text container the paste handler adds directly to the viewport. -/
structure PastedTextBox where
  x : ℚ
  y : ℚ
  boxWidth : ℚ
  boxHeight : ℚ
deriving DecidableEq, Repr

/-- Everything a paste event produces: the blocks store afterwards and the
    display objects added outside the store. -/
structure PasteResult where
  blocksState : BlocksState
  sprites : List PastedSprite
  textBoxes : List PastedTextBox
deriving DecidableEq, Repr

/-- Executable model of String.prototype.trim as used by the paste handler:
    strips leading and trailing whitespace. -/
def strTrim (t : String) : String :=
  String.mk (((t.data.dropWhile Char.isWhitespace).reverse.dropWhile Char.isWhitespace).reverse)

/-- The CanvasApp handlePaste: an image (file or HTML) becomes a sprite at the
    viewport center, uniformly scaled by min(maxDim/w, maxDim/h, 1) with
    maxDim = min(innerWidth, innerHeight) * 0.8; nonblank plain text becomes a
    200 by 100 text container at the viewport center.  The blocks store is
    never touched. -/
def handlePaste (s : BlocksState) (worldCenter : Pos) (innerWidth innerHeight : ℚ)
    (payload : ClipboardPayload) : PasteResult :=
  match payload with
  | ClipboardPayload.imageFile w h =>
      let maxDim := min innerWidth innerHeight * (8 / 10)
      let scale := min (min (maxDim / w) (maxDim / h)) 1
      { blocksState := s
        sprites := [{ centerX := worldCenter.x, centerY := worldCenter.y
                      displayWidth := w * scale, displayHeight := h * scale }]
        textBoxes := [] }
  | ClipboardPayload.htmlImage w h =>
      let maxDim := min innerWidth innerHeight * (8 / 10)
      let scale := min (min (maxDim / w) (maxDim / h)) 1
      { blocksState := s
        sprites := [{ centerX := worldCenter.x, centerY := worldCenter.y
                      displayWidth := w * scale, displayHeight := h * scale }]
        textBoxes := [] }
  | ClipboardPayload.plainText t =>
      if t != "" && strTrim t != "" then
        { blocksState := s
          sprites := []
          textBoxes := [{ x := worldCenter.x, y := worldCenter.y
                          boxWidth := 200, boxHeight := 100 }] }
      else
        { blocksState := s, sprites := [], textBoxes := [] }
  | ClipboardPayload.empty =>
      { blocksState := s, sprites := [], textBoxes := [] }

/-- Public mutations of the blocks store, for stating invariants over
    operation sequences. -/
inductive StoreOp where
  | add (b : Block)
  | select (id : String) (multi : Bool)
  | deselect
  | delete (id : String)
  | move (id : String) (x y : ℚ)
  | resize (id : String) (w h : ℚ)
deriving DecidableEq, Repr

/-- Dispatch one store operation. -/
def applyOp (s : BlocksState) : StoreOp → BlocksState
  | StoreOp.add b => addBlock s b
  | StoreOp.select id multi => selectBlock s id multi
  | StoreOp.deselect => deselectAll s
  | StoreOp.delete id => deleteBlock s id
  | StoreOp.move id x y => moveBlock s id x y
  | StoreOp.resize id w h => resizeBlock s id w h

/-- Run a sequence of store operations left to right. -/
def applyOps (s : BlocksState) : List StoreOp → BlocksState
  | [] => s
  | op :: ops => applyOps (applyOp s op) ops

/-- Every add in the sequence inserts a helper-created-style block: selected
    is false and its (random) id is not currently in the selection set. -/
def freshAdds (s : BlocksState) : List StoreOp → Bool
  | [] => true
  | StoreOp.add b :: ops =>
      (!b.selected && !(s.selectedBlockIds.contains b.id)) && freshAdds (addBlock s b) ops
  | op :: ops => freshAdds (applyOp s op) ops

/-- The selection invariant: every block's selected flag agrees with
    membership of its id in selectedBlockIds. -/
def selectionConsistent (s : BlocksState) : Bool :=
  s.blocks.all (fun b => b.selected == s.selectedBlockIds.contains b.id)

/-- The minimum-size invariant: every block is at least 50 by 50. -/
def sizeInv (s : BlocksState) : Bool :=
  s.blocks.all (fun b => decide (50 ≤ b.size.width) && decide (50 ≤ b.size.height))

/-- Position of the first block with the given id, as the renderer reads it. -/
def blockPos (s : BlocksState) (id : String) : Option Pos :=
  (s.blocks.find? (fun b => b.id == id)).map (fun b => b.position)

/-- Size of the first block with the given id. -/
def blockSize (s : BlocksState) (id : String) : Option Size :=
  (s.blocks.find? (fun b => b.id == id)).map (fun b => b.size)

/-- Text content of the first block with the given id, when it is a text
    block. -/
def blockText (s : BlocksState) (id : String) : Option String :=
  match s.blocks.find? (fun b => b.id == id) with
  | some b =>
      match b.content with
      | Content.text c => some c.text
      | Content.image _ => none
  | none => none

/-- Concrete fixtures used by counterexamples and witnesses. -/
def fixtureBlockA : Block := createTextBlock "b1" 0 0 "A"

/-- A second concrete block. -/
def fixtureBlockB : Block := createTextBlock "b2" 0 0 "B"

/-- A combined state with two blocks, block b1 selected, and one connection
    b1 - b2. -/
def fixtureApp : AppState :=
  { blocksState := { blocks := [fixtureBlockA, fixtureBlockB], selectedBlockIds := ["b1"] }
    connectionsState :=
      { connections := [{ id := "c1", from_ := "b1", to_ := "b2", type := ConnType.curved }]
        connectionMode := false
        connectingFrom := none } }

lemma mem_setDelete {l : List String} {x id : String} :
    x ∈ setDelete l id ↔ x ∈ l ∧ x ≠ id := by
  simp [setDelete]

lemma contains_setDelete_self (l : List String) (id : String) :
    (setDelete l id).contains id = false := by
  simp [setDelete]

lemma contains_setDelete_of_ne {l : List String} {x id : String} (h : x ≠ id) :
    (setDelete l id).contains x = l.contains x := by
  simp [setDelete, List.mem_filter, h]

/-- C1 counterexample input is fixtureApp and id b1; the claim is falsified
    because the connections store still holds a connection referencing b1
    after the delete. -/
theorem deleteBlock_keeps_store_connections :
    ((appDeleteBlock fixtureApp "b1").connectionsState.connections.any
      (fun c => connReferences c "b1")) = true := by
  decide

/-- C1 (amended): deleteBlock removes the block and the id from the selection
    set, and although the connections store keeps connections that reference
    the deleted id, the renderer filters them out, so none referencing the id
    is drawn. -/
theorem deleteBlock_selection_and_render_filter (a : AppState) (id : String) :
    ((appDeleteBlock a id).blocksState.blocks.all (fun b => b.id != id)) = true ∧
    ((appDeleteBlock a id).blocksState.selectedBlockIds.contains id) = false ∧
    ((renderedConnections (appDeleteBlock a id).blocksState.blocks
        (appDeleteBlock a id).connectionsState.connections).all
      (fun c => !(connReferences c id))) = true := by
  refine ⟨?_, ?_, ?_⟩
  · simp only [appDeleteBlock, deleteBlock, List.all_eq_true, List.mem_filter]
    exact fun b hb => hb.2
  · exact contains_setDelete_self _ _
  · simp only [renderedConnections, List.all_eq_true, List.mem_filter]
    rintro c ⟨-, hc⟩
    simp only [appDeleteBlock, deleteBlock, Bool.and_eq_true, List.any_eq_true,
      List.mem_filter, beq_iff_eq, bne_iff_ne] at hc
    obtain ⟨⟨bf, ⟨-, hbf⟩, hf⟩, ⟨bt, ⟨-, hbt⟩, ht⟩⟩ := hc
    simp only [connReferences, Bool.not_eq_true', Bool.or_eq_false_iff, beq_eq_false_iff_ne]
    exact ⟨fun hcf => hbf (hf.trans hcf), fun hct => hbt (ht.trans hct)⟩

/-- C2 counterexample: enter edit mode on a block whose text is A, type AB
    (committed to the store by the input event), press Escape; the store text
    stays AB, it is not restored to the pre-edit snapshot A. -/
theorem escape_does_not_restore_snapshot :
    blockText
      (editKeyDown
        (editInput { blocks := [fixtureBlockA], selectedBlockIds := [] }
          (startEditingSystemBlock fixtureBlockA
            { text := "A", fontSize := 16, color := "#ffffff" }) "AB").1
        (editInput { blocks := [fixtureBlockA], selectedBlockIds := [] }
          (startEditingSystemBlock fixtureBlockA
            { text := "A", fontSize := 16, color := "#ffffff" }) "AB").2
        EditKey.escape).1 "b1" = some "AB" ∧ "AB" ≠ "A" := by
  exact ⟨by decide, by decide⟩

/-- C2 (amended): Escape exits edit mode without any store mutation; since
    every input event already committed its text to the store, the changes
    made during editing persist instead of being rolled back. -/
theorem escape_exits_without_store_change (s : BlocksState) (sess : EditSession) (v : String) :
    editKeyDown s sess EditKey.escape = (s, false) ∧
    (editKeyDown (editInput s sess v).1 (editInput s sess v).2 EditKey.escape).1 =
      updateBlockContent s sess.blockId
        (Content.text { sess.content0 with text := if v == "" then " " else v }) :=
  ⟨rfl, rfl⟩

/-- C3 counterexample: createImageBlock with negative size components does not
    fail; it returns an image block with both components clamped to 50. -/
theorem createImageBlock_negative_size_clamped :
    (createImageBlock "b" 0 0 "u" (-10) (-5)).size = { width := 50, height := 50 } ∧
    (createImageBlock "b" 0 0 "u" (-10) (-5)).type = BlockType.image := by
  exact ⟨by decide, by decide⟩

/-- C3 (amended): block creation never fails; createImageBlock clamps each
    size component with Math.max(v, 50) and createTextBlock always produces a
    200 by 100 block, so every helper-created block has width and height at
    least 50. -/
theorem create_clamps_no_failure (id tid url text : String) (x y w h : ℚ) :
    (createImageBlock id x y url w h).size.width = max w 50 ∧
    (createImageBlock id x y url w h).size.height = max h 50 ∧
    50 ≤ (createImageBlock id x y url w h).size.width ∧
    50 ≤ (createImageBlock id x y url w h).size.height ∧
    (createTextBlock tid x y text).size = { width := 200, height := 100 } := by
  refine ⟨rfl, rfl, le_max_right _ _, le_max_right _ _, ?_⟩
  simp only [createTextBlock]
  norm_num

/-- C4 counterexample: with connectingFrom armed as b1, a second shift
    pointer-down on the same block b1 leaves the connections store completely
    unchanged; connectingFrom is still b1, not cleared as the claim states. -/
theorem connect_same_block_does_not_cancel :
    (shiftPointerDown
        { connections := [], connectionMode := false, connectingFrom := some "b1" }
        "b1" "c1").connectingFrom = some "b1" ∧
    some "b1" ≠ (none : Option String) := by
  exact ⟨by decide, by decide⟩

/-- C4 (amended): with connectingFrom armed as f, a second shift pointer-down
    on a different block commits a connection between the two blocks (or keeps
    the already-existing one) and clears connectingFrom; a second shift
    pointer-down on the same block is a no-op, leaving connectingFrom armed
    rather than cancelling the gesture. -/
theorem connect_gesture_behaviour (s : ConnectionsState) (f bId cid : String)
    (hf : s.connectingFrom = some f) (hne : f ≠ "") :
    (f ≠ bId →
      (shiftPointerDown s bId cid).connectingFrom = none ∧
      connPairExists (shiftPointerDown s bId cid).connections f bId = true) ∧
    (f = bId → shiftPointerDown s bId cid = s) := by
  have hbe : (f == "") = false := by simpa using hne
  constructor
  · intro hfb
    have hb : (f != bId) = true := by simpa [bne_iff_ne] using hfb
    simp only [shiftPointerDown, hf, hbe, Bool.false_eq_true, if_false, hb, if_true]
    refine ⟨rfl, ?_⟩
    simp only [setConnectingFrom, addConnection]
    have hfb2 : (f == bId) = false := by simpa using hfb
    simp only [hfb2, Bool.false_eq_true, if_false]
    by_cases hex : connPairExists s.connections f bId = true
    · simp [hex]
    · simp only [hex, if_false, Bool.false_eq_true]
      simp [connPairExists, List.any_append]
  · intro hfb
    subst hfb
    simp [shiftPointerDown, hf, hbe]

/-- C4 witness: a concrete run of the amended different-block case. -/
theorem connect_gesture_behaviour_witness :
    (shiftPointerDown
        { connections := [], connectionMode := false, connectingFrom := some "b1" }
        "b2" "c1").connectingFrom = none ∧
    connPairExists
      (shiftPointerDown
        { connections := [], connectionMode := false, connectingFrom := some "b1" }
        "b2" "c1").connections "b1" "b2" = true :=
  (connect_gesture_behaviour
    { connections := [], connectionMode := false, connectingFrom := some "b1" }
    "b1" "b2" "c1" rfl (by decide)).1 (by decide)

/-- A selected 100 by 100 block at the origin, for the resize scenarios. -/
def fixtureBlockSquare : Block :=
  { id := "b1", type := BlockType.text
    content := Content.text { text := "t", fontSize := 16, color := "#ffffff" }
    position := { x := 0, y := 0 }, size := { width := 100, height := 100 }
    selected := true, locked := false, visible := true }

/-- Store holding only the square block, selected. -/
def fixtureStateSquare : BlocksState :=
  { blocks := [fixtureBlockSquare], selectedBlockIds := ["b1"] }

lemma sizeInv_moveBlock (s : BlocksState) (id : String) (x y : ℚ)
    (hs : sizeInv s = true) : sizeInv (moveBlock s id x y) = true := by
  simp only [sizeInv, List.all_eq_true, moveBlock, List.mem_map] at hs ⊢
  rintro b2 ⟨b, hb, rfl⟩
  by_cases hid : (b.id == id) = true
  · simpa [hid] using hs b hb
  · simpa [hid] using hs b hb

lemma sizeInv_resizeBlock (s : BlocksState) (id : String) (w h : ℚ)
    (hs : sizeInv s = true) : sizeInv (resizeBlock s id w h) = true := by
  simp only [sizeInv, List.all_eq_true, resizeBlock, List.mem_map] at hs ⊢
  rintro b2 ⟨b, hb, rfl⟩
  by_cases hid : (b.id == id) = true
  · simp [hid, le_max_left]
  · simpa [hid] using hs b hb

lemma sizeInv_addBlock (s : BlocksState) (b : Block)
    (hs : sizeInv s = true)
    (hb : 50 ≤ b.size.width ∧ 50 ≤ b.size.height) : sizeInv (addBlock s b) = true := by
  simp only [sizeInv, List.all_eq_true, addBlock, List.mem_append, List.mem_singleton] at hs ⊢
  rintro b2 (hb2 | rfl)
  · exact hs b2 hb2
  · simp [hb.1, hb.2]

lemma sizeInv_handleResizeMove (b : Block) (corner : Corner) (rs : ResizeStart)
    (isr : Bool) (s : BlocksState) (world : Pos)
    (hs : sizeInv s = true) : sizeInv (handleResizeMove b corner rs isr s world) = true := by
  unfold handleResizeMove
  cases isr with
  | false => simpa using hs
  | true =>
      simp only [Bool.not_true, Bool.false_eq_true, if_false]
      apply sizeInv_resizeBlock
      split
      · exact sizeInv_moveBlock _ _ _ _ hs
      · exact hs

/-- C5 counterexample: top-left resize of the 100 by 100 block at the origin
    with a pointer delta of +120 in x: the width floor clamps to 50, but the
    position is still moved by the raw delta to x = 120, past the opposite
    (right) edge at x = 100.  The claim that position does not overshoot once
    the floor is hit is false. -/
theorem resize_position_overshoots_far_edge :
    blockPos
      (handleResizeMove fixtureBlockSquare Corner.tl
        { width := 100, height := 100, x := 0, y := 0 }
        true fixtureStateSquare { x := 120, y := 0 }) "b1" = some { x := 120, y := 0 } ∧
    blockSize
      (handleResizeMove fixtureBlockSquare Corner.tl
        { width := 100, height := 100, x := 0, y := 0 }
        true fixtureStateSquare { x := 120, y := 0 }) "b1" = some { width := 50, height := 100 } ∧
    (0 : ℚ) + 100 < 120 := by
  refine ⟨?_, ?_, by norm_num⟩ <;>
    norm_num [blockPos, blockSize, handleResizeMove, moveBlock, resizeBlock,
      fixtureStateSquare, fixtureBlockSquare, List.find?]

/-- C5 (amended): the Math.max(50, v) clamps keep every block at least 50 by
    50 across creates and resizes (resizeBlock, the corner resize handler,
    and the block-creation helpers), but they do not constrain the position,
    which during a top/left resize can travel past the opposite edge. -/
theorem min_size_invariant (s : BlocksState) (b : Block) (corner : Corner)
    (rs : ResizeStart) (isr : Bool) (world : Pos)
    (id tid iid url text : String) (x y w h : ℚ)
    (hs : sizeInv s = true) :
    sizeInv (resizeBlock s id w h) = true ∧
    sizeInv (addBlock s (createTextBlock tid x y text)) = true ∧
    sizeInv (addBlock s (createImageBlock iid x y url w h)) = true ∧
    sizeInv (handleResizeMove b corner rs isr s world) = true := by
  refine ⟨sizeInv_resizeBlock s id w h hs, ?_, ?_, sizeInv_handleResizeMove b corner rs isr s world hs⟩
  · refine sizeInv_addBlock s _ hs ⟨?_, ?_⟩ <;> · simp only [createTextBlock]; norm_num
  · exact sizeInv_addBlock s _ hs ⟨le_max_right _ _, le_max_right _ _⟩

/-- C5 witness: a concrete run of the amended invariant on the square-block
    store. -/
theorem min_size_invariant_witness :
    sizeInv (resizeBlock fixtureStateSquare "b1" 10 10) = true ∧
    sizeInv (addBlock fixtureStateSquare (createTextBlock "t1" 0 0 "hi")) = true ∧
    sizeInv (addBlock fixtureStateSquare (createImageBlock "i1" 0 0 "u" 300 200)) = true ∧
    sizeInv (handleResizeMove fixtureBlockSquare Corner.tl
      { width := 100, height := 100, x := 0, y := 0 } true fixtureStateSquare
      { x := 120, y := 0 }) = true :=
  min_size_invariant fixtureStateSquare fixtureBlockSquare Corner.tl
    { width := 100, height := 100, x := 0, y := 0 } true { x := 120, y := 0 }
    "b1" "t1" "i1" "u" "hi" 0 0 300 200 (by decide)

/-- C8: top-left corner resize of the 100 by 100 block at the origin by a
    pointer delta of (+20, +10): size becomes (80, 90) and position (20, 10),
    so the bottom-right corner stays at (100, 100). -/
theorem topleft_resize_keeps_far_edge :
    blockPos
      (handleResizeMove fixtureBlockSquare Corner.tl
        (resizePointerDown fixtureBlockSquare initialGesture { x := 0, y := 0 }).2
        (resizePointerDown fixtureBlockSquare initialGesture { x := 0, y := 0 }).1.isResizing
        fixtureStateSquare { x := 20, y := 10 }) "b1" = some { x := 20, y := 10 } ∧
    blockSize
      (handleResizeMove fixtureBlockSquare Corner.tl
        (resizePointerDown fixtureBlockSquare initialGesture { x := 0, y := 0 }).2
        (resizePointerDown fixtureBlockSquare initialGesture { x := 0, y := 0 }).1.isResizing
        fixtureStateSquare { x := 20, y := 10 }) "b1" = some { width := 80, height := 90 } ∧
    (20 : ℚ) + 80 = 0 + 100 ∧ (10 : ℚ) + 90 = 0 + 100 := by
  refine ⟨?_, ?_, by norm_num, by norm_num⟩ <;>
    norm_num [blockPos, blockSize, handleResizeMove, resizePointerDown, initialGesture,
      moveBlock, resizeBlock, fixtureStateSquare, fixtureBlockSquare, List.find?]

lemma exists_id_selectBlock (s : BlocksState) (j : String) (m : Bool) {i : String}
    (h : ∃ b ∈ s.blocks, b.id = i) : ∃ b ∈ (selectBlock s j m).blocks, b.id = i := by
  obtain ⟨b, hb, hid⟩ := h
  simp only [selectBlock, List.mem_map]
  exact ⟨_, ⟨b, hb, rfl⟩, hid⟩

lemma find?_map_move (l : List Block) (i : String) (x y : ℚ)
    (h : ∃ b ∈ l, b.id = i) :
    ((l.map (fun b =>
        if b.id == i then { b with position := { x := x, y := y } } else b)).find?
      (fun b => b.id == i)).map (fun b => b.position) = some { x := x, y := y } := by
  induction l with
  | nil => simp at h
  | cons a t ih =>
      simp only [List.map_cons]
      by_cases ha : (a.id == i) = true
      · have ha2 : (fun (b : Block) => b.id == i)
            ({ a with position := { x := x, y := y } } : Block) = true := ha
        rw [if_pos ha,
          @List.find?_cons_of_pos Block (fun b => b.id == i)
            ({ a with position := { x := x, y := y } }) _ ha2]
        simp
      · have ha3 : ¬ ((fun (b : Block) => b.id == i) a = true) := ha
        rw [if_neg ha, @List.find?_cons_of_neg Block (fun b => b.id == i) a _ ha3]
        apply ih
        rcases h with ⟨b0, hb0, hid⟩
        rcases List.mem_cons.mp hb0 with rfl | hmem
        · exact absurd (by simp [hid]) ha
        · exact ⟨b0, hmem, hid⟩

lemma blockPos_moveBlock (s : BlocksState) {i : String} (x y : ℚ)
    (h : ∃ b ∈ s.blocks, b.id = i) :
    blockPos (moveBlock s i x y) i = some { x := x, y := y } := by
  simp only [blockPos, moveBlock]
  exact find?_map_move s.blocks i x y h

lemma handlePointerMove_armed (b : Block) (g : GestureState) (s : BlocksState) (w : Pos)
    (hd : g.isDragging = true) (hr : g.isResizing = false)
    (hth : |w.x - g.dragStart.x - b.position.x| > 5 ∨ |w.y - g.dragStart.y - b.position.y| > 5) :
    handlePointerMove b g s w =
      ({ g with dragging := true },
       moveBlock s b.id (w.x - g.dragStart.x) (w.y - g.dragStart.y)) := by
  simp only [handlePointerMove, hd, hr, Bool.not_false, Bool.and_self, if_true]
  rw [if_pos hth]
  simp

lemma handlePointerMove_disarmed (b : Block) (g : GestureState) (s : BlocksState) (w : Pos)
    (hd : g.isDragging = false) :
    handlePointerMove b g s w = (g, s) := by
  simp [handlePointerMove, hd]

lemma handlePointerUp_after_drag (b : Block) (g : GestureState) (now : Nat)
    (hd : g.isDragging = true) (hdr : g.dragging = true) :
    handlePointerUp b g now = ({ g with isDragging := false, isResizing := false }, false) := by
  simp [handlePointerUp, hd, hdr]

/-- C6: pointer-down on a block at world point w1 arms the drag; a move to w2
    whose accumulated delta exceeds the 5-unit threshold on either axis
    commits the full delta, leaving the block at
    originalPosition + (w2 - w1); pointer-up disarms the gesture and a
    further move afterwards changes neither the gesture nor the store. -/
theorem drag_applies_full_delta_and_up_ends (b : Block) (s : BlocksState) (multi : Bool)
    (w1 w2 w3 : Pos) (now : Nat)
    (g1 : GestureState) (s1 : BlocksState) (g2 : GestureState) (s2 : BlocksState)
    (g3 : GestureState) (e3 : Bool)
    (h1 : blockPointerDownNormal b initialGesture s multi w1 = (g1, s1))
    (h2 : handlePointerMove b g1 s1 w2 = (g2, s2))
    (h3 : handlePointerUp b g2 now = (g3, e3))
    (hex : ∃ x ∈ s.blocks, x.id = b.id)
    (hth : |w2.x - w1.x| > 5 ∨ |w2.y - w1.y| > 5) :
    blockPos s2 b.id =
      some { x := b.position.x + (w2.x - w1.x), y := b.position.y + (w2.y - w1.y) } ∧
    handlePointerMove b g3 s2 w3 = (g3, s2) := by
  rw [blockPointerDownNormal, Prod.mk.injEq] at h1
  obtain ⟨hg1, hs1⟩ := h1
  subst hg1
  subst hs1
  rw [handlePointerMove_armed b _ _ w2 rfl rfl ?hth2] at h2
  case hth2 =>
    have e1 : w2.x - ({ initialGesture with
        dragStart := { x := w1.x - b.position.x, y := w1.y - b.position.y }
        isDragging := true, dragging := false } : GestureState).dragStart.x - b.position.x
        = w2.x - w1.x := by
      dsimp only
      ring
    have e2 : w2.y - ({ initialGesture with
        dragStart := { x := w1.x - b.position.x, y := w1.y - b.position.y }
        isDragging := true, dragging := false } : GestureState).dragStart.y - b.position.y
        = w2.y - w1.y := by
      dsimp only
      ring
    rw [e1, e2]
    exact hth
  rw [Prod.mk.injEq] at h2
  obtain ⟨hg2, hs2⟩ := h2
  subst hg2
  subst hs2
  rw [handlePointerUp_after_drag b _ now rfl rfl, Prod.mk.injEq] at h3
  obtain ⟨hg3, he3⟩ := h3
  subst hg3
  subst he3
  constructor
  · rw [blockPos_moveBlock _ _ _ (exists_id_selectBlock s b.id multi hex)]
    refine congrArg some ?_
    dsimp only
    rw [Pos.mk.injEq]
    constructor <;> ring
  · exact handlePointerMove_disarmed b _ _ w3 rfl

/-- C6 witness: a concrete drag on a one-block store from world (3, 4) to
    (10, 4), then up at t = 1000, then a further move to (50, 50). -/
theorem drag_applies_full_delta_witness :
    blockPos
      (handlePointerMove fixtureBlockA
        (blockPointerDownNormal fixtureBlockA initialGesture
          { blocks := [fixtureBlockA], selectedBlockIds := [] } false { x := 3, y := 4 }).1
        (blockPointerDownNormal fixtureBlockA initialGesture
          { blocks := [fixtureBlockA], selectedBlockIds := [] } false { x := 3, y := 4 }).2
        { x := 10, y := 4 }).2 "b1" =
      some { x := fixtureBlockA.position.x + ((10 : ℚ) - 3),
             y := fixtureBlockA.position.y + ((4 : ℚ) - 4) } ∧
    handlePointerMove fixtureBlockA
      (handlePointerUp fixtureBlockA
        (handlePointerMove fixtureBlockA
          (blockPointerDownNormal fixtureBlockA initialGesture
            { blocks := [fixtureBlockA], selectedBlockIds := [] } false { x := 3, y := 4 }).1
          (blockPointerDownNormal fixtureBlockA initialGesture
            { blocks := [fixtureBlockA], selectedBlockIds := [] } false { x := 3, y := 4 }).2
          { x := 10, y := 4 }).1 1000).1
      (handlePointerMove fixtureBlockA
        (blockPointerDownNormal fixtureBlockA initialGesture
          { blocks := [fixtureBlockA], selectedBlockIds := [] } false { x := 3, y := 4 }).1
        (blockPointerDownNormal fixtureBlockA initialGesture
          { blocks := [fixtureBlockA], selectedBlockIds := [] } false { x := 3, y := 4 }).2
        { x := 10, y := 4 }).2 { x := 50, y := 50 } =
      ((handlePointerUp fixtureBlockA
        (handlePointerMove fixtureBlockA
          (blockPointerDownNormal fixtureBlockA initialGesture
            { blocks := [fixtureBlockA], selectedBlockIds := [] } false { x := 3, y := 4 }).1
          (blockPointerDownNormal fixtureBlockA initialGesture
            { blocks := [fixtureBlockA], selectedBlockIds := [] } false { x := 3, y := 4 }).2
          { x := 10, y := 4 }).1 1000).1,
       (handlePointerMove fixtureBlockA
        (blockPointerDownNormal fixtureBlockA initialGesture
          { blocks := [fixtureBlockA], selectedBlockIds := [] } false { x := 3, y := 4 }).1
        (blockPointerDownNormal fixtureBlockA initialGesture
          { blocks := [fixtureBlockA], selectedBlockIds := [] } false { x := 3, y := 4 }).2
        { x := 10, y := 4 }).2) :=
  drag_applies_full_delta_and_up_ends fixtureBlockA
    { blocks := [fixtureBlockA], selectedBlockIds := [] } false
    { x := 3, y := 4 } { x := 10, y := 4 } { x := 50, y := 50 } 1000
    _ _ _ _ _ _ rfl rfl rfl ⟨fixtureBlockA, by simp, rfl⟩ (by norm_num)

/-- C7 counterexample: a qualifying pointer-up on a text block with
    now = lastClickTimestamp = 100 gives delta t = 0; the claim requires a
    single click (record now), but the code classifies it as a double-click,
    enters edit mode and resets lastClickTimestamp to 0. -/
theorem double_click_at_zero_delta :
    (handlePointerUp fixtureBlockA
      { isDragging := true, isResizing := false, dragging := false
        dragStart := { x := 0, y := 0 }, lastClickTime := 100 } 100).2 = true ∧
    (handlePointerUp fixtureBlockA
      { isDragging := true, isResizing := false, dragging := false
        dragStart := { x := 0, y := 0 }, lastClickTime := 100 } 100).1.lastClickTime = 0 ∧
    ¬ (0 < (100 : ℤ) - 100) := by
  exact ⟨by decide, by decide, by decide⟩

/-- C7 (amended): on a qualifying pointer-up on a text block the code tests
    only delta t less than 300 (no positive lower bound): below 300 it enters
    edit mode and resets lastClickTimestamp to 0, otherwise it records now;
    the reset keeps a third rapid click from being read as a double-click
    whenever its timestamp is at least 300. -/
theorem double_click_window (b : Block) (g g2 : GestureState) (now now2 : Nat)
    (hd : g.isDragging = true) (hr : g.isResizing = false) (hdr : g.dragging = false)
    (ht : b.type = BlockType.text)
    (hd2 : g2.isDragging = true) (hr2 : g2.isResizing = false) (hdr2 : g2.dragging = false)
    (hl2 : g2.lastClickTime = 0) (h300 : 300 ≤ now2) :
    ((now : ℤ) - (g.lastClickTime : ℤ) < 300 →
      handlePointerUp b g now =
        ({ g with isDragging := false, isResizing := false, lastClickTime := 0 }, true)) ∧
    (300 ≤ (now : ℤ) - (g.lastClickTime : ℤ) →
      handlePointerUp b g now =
        ({ g with isDragging := false, isResizing := false, lastClickTime := now }, false)) ∧
    (handlePointerUp b g2 now2).2 = false := by
  refine ⟨?_, ?_, ?_⟩
  · intro hlt
    simp [handlePointerUp, hd, hr, hdr, ht, hlt]
  · intro hge
    have hnlt : ¬ ((now : ℤ) - (g.lastClickTime : ℤ) < 300) := not_lt.mpr hge
    simp [handlePointerUp, hd, hr, hdr, ht, hnlt]
  · have hnlt : ¬ ((now2 : ℤ) - (g2.lastClickTime : ℤ) < 300) := by
      rw [hl2]
      omega
    rcases Bool.eq_false_or_eq_true (b.type == BlockType.text) with htb | htb <;>
      simp [handlePointerUp, hd2, hr2, hdr2, hnlt, htb]

/-- C7 witness: a double-click pair 150 ms apart enters edit mode, and after
    the reset a third click at t = 400 is a single click. -/
theorem double_click_window_witness :
    handlePointerUp fixtureBlockA
      { isDragging := true, isResizing := false, dragging := false
        dragStart := { x := 0, y := 0 }, lastClickTime := 100 } 250 =
      ({ isDragging := false, isResizing := false, dragging := false
         dragStart := { x := 0, y := 0 }, lastClickTime := 0 }, true) ∧
    (handlePointerUp fixtureBlockA
      { isDragging := true, isResizing := false, dragging := false
        dragStart := { x := 0, y := 0 }, lastClickTime := 0 } 400).2 = false :=
  ⟨(double_click_window fixtureBlockA
      { isDragging := true, isResizing := false, dragging := false
        dragStart := { x := 0, y := 0 }, lastClickTime := 100 }
      { isDragging := true, isResizing := false, dragging := false
        dragStart := { x := 0, y := 0 }, lastClickTime := 0 } 250 400
      rfl rfl rfl rfl rfl rfl rfl rfl (by decide)).1 (by decide),
   (double_click_window fixtureBlockA
      { isDragging := true, isResizing := false, dragging := false
        dragStart := { x := 0, y := 0 }, lastClickTime := 100 }
      { isDragging := true, isResizing := false, dragging := false
        dragStart := { x := 0, y := 0 }, lastClickTime := 0 } 250 400
      rfl rfl rfl rfl rfl rfl rfl rfl (by decide)).2.2⟩

/-- C9 counterexample: pasting a 600 by 300 image on an 1000 by 800 window
    adds one sprite straight to the viewport but creates no block in the
    Entity Store at all, against the claim that every paste creates exactly
    one store block. -/
theorem paste_creates_no_store_block :
    (handlePaste { blocks := [], selectedBlockIds := [] } { x := 0, y := 0 } 1000 800
      (ClipboardPayload.imageFile 600 300)).blocksState.blocks.length = 0 ∧
    (handlePaste { blocks := [], selectedBlockIds := [] } { x := 0, y := 0 } 1000 800
      (ClipboardPayload.imageFile 600 300)).sprites.length = 1 := by
  exact ⟨by decide, by decide⟩

/-- C9 (amended): no paste payload ever touches the Entity Store; an image
    paste (file or HTML) adds exactly one sprite, centered on the viewport
    center and uniformly scaled, so its displayed size preserves the natural
    aspect ratio (in particular 2:1 for a 600 by 300 image); a nonblank plain
    text paste adds exactly one raw 200 by 100 text container at the viewport
    center and no sprite. -/
theorem paste_image_viewport_sprite (s : BlocksState) (center : Pos) (iw ih w h : ℚ)
    (t : String) (payload : ClipboardPayload)
    (hw : 0 < w) (hh : 0 < h) (hiw : 0 < iw) (hih : 0 < ih) :
    (handlePaste s center iw ih payload).blocksState = s ∧
    ((handlePaste s center iw ih (ClipboardPayload.imageFile w h)).textBoxes = [] ∧
      (handlePaste s center iw ih (ClipboardPayload.imageFile w h)).sprites.length = 1 ∧
      ((handlePaste s center iw ih (ClipboardPayload.imageFile w h)).sprites.all
        (fun sp => decide (sp.centerX = center.x) && decide (sp.centerY = center.y) &&
          decide (sp.displayWidth * h = sp.displayHeight * w) &&
          decide (0 < sp.displayWidth))) = true) ∧
    ((handlePaste s center iw ih (ClipboardPayload.htmlImage w h)).textBoxes = [] ∧
      (handlePaste s center iw ih (ClipboardPayload.htmlImage w h)).sprites.length = 1 ∧
      ((handlePaste s center iw ih (ClipboardPayload.htmlImage w h)).sprites.all
        (fun sp => decide (sp.centerX = center.x) && decide (sp.centerY = center.y) &&
          decide (sp.displayWidth * h = sp.displayHeight * w) &&
          decide (0 < sp.displayWidth))) = true) ∧
    (t ≠ "" → strTrim t ≠ "" →
      (handlePaste s center iw ih (ClipboardPayload.plainText t)).sprites = [] ∧
      (handlePaste s center iw ih (ClipboardPayload.plainText t)).textBoxes =
        [{ x := center.x, y := center.y, boxWidth := 200, boxHeight := 100 }]) := by
  have hmd : 0 < min iw ih * (8 / 10) := by
    have : (0 : ℚ) < min iw ih := lt_min hiw hih
    nlinarith
  have hsc : 0 < min (min (min iw ih * (8 / 10) / w) (min iw ih * (8 / 10) / h)) 1 :=
    lt_min (lt_min (div_pos hmd hw) (div_pos hmd hh)) one_pos
  have hstore : (handlePaste s center iw ih payload).blocksState = s := by
    cases payload with
    | imageFile w2 h2 => rfl
    | htmlImage w2 h2 => rfl
    | plainText t2 =>
        unfold handlePaste
        split <;> first
          | rfl
          | split <;> rfl
    | empty => rfl
  refine ⟨hstore, ⟨rfl, rfl, ?_⟩, ⟨rfl, rfl, ?_⟩, ?_⟩
  · simp only [handlePaste, List.all_cons, List.all_nil, Bool.and_true, Bool.and_eq_true,
      decide_eq_true_eq]
    exact ⟨⟨⟨trivial, trivial⟩, by ring⟩, mul_pos hw hsc⟩
  · simp only [handlePaste, List.all_cons, List.all_nil, Bool.and_true, Bool.and_eq_true,
      decide_eq_true_eq]
    exact ⟨⟨⟨trivial, trivial⟩, by ring⟩, mul_pos hw hsc⟩
  · intro ht1 ht2
    have hg : (t != "" && strTrim t != "") = true := by
      simp [bne_iff_ne, ht1, ht2]
    constructor <;> simp [handlePaste, hg]

/-- C9 witness: the amended statement on an 1000 by 800 window, at the 600 by
    300 image payloads and the plain-text payload hello. -/
theorem paste_image_viewport_sprite_witness :
    (handlePaste { blocks := [], selectedBlockIds := [] } { x := 7, y := 9 } 1000 800
      (ClipboardPayload.plainText "hello")).blocksState =
        { blocks := [], selectedBlockIds := [] } ∧
    ((handlePaste { blocks := [], selectedBlockIds := [] } { x := 7, y := 9 } 1000 800
      (ClipboardPayload.imageFile 600 300)).textBoxes = [] ∧
      (handlePaste { blocks := [], selectedBlockIds := [] } { x := 7, y := 9 } 1000 800
        (ClipboardPayload.imageFile 600 300)).sprites.length = 1 ∧
      ((handlePaste { blocks := [], selectedBlockIds := [] } { x := 7, y := 9 } 1000 800
        (ClipboardPayload.imageFile 600 300)).sprites.all
        (fun sp => decide (sp.centerX = (7 : ℚ)) && decide (sp.centerY = (9 : ℚ)) &&
          decide (sp.displayWidth * 300 = sp.displayHeight * 600) &&
          decide ((0 : ℚ) < sp.displayWidth))) = true) ∧
    ((handlePaste { blocks := [], selectedBlockIds := [] } { x := 7, y := 9 } 1000 800
      (ClipboardPayload.htmlImage 600 300)).textBoxes = [] ∧
      (handlePaste { blocks := [], selectedBlockIds := [] } { x := 7, y := 9 } 1000 800
        (ClipboardPayload.htmlImage 600 300)).sprites.length = 1 ∧
      ((handlePaste { blocks := [], selectedBlockIds := [] } { x := 7, y := 9 } 1000 800
        (ClipboardPayload.htmlImage 600 300)).sprites.all
        (fun sp => decide (sp.centerX = (7 : ℚ)) && decide (sp.centerY = (9 : ℚ)) &&
          decide (sp.displayWidth * 300 = sp.displayHeight * 600) &&
          decide ((0 : ℚ) < sp.displayWidth))) = true) ∧
    ((handlePaste { blocks := [], selectedBlockIds := [] } { x := 7, y := 9 } 1000 800
      (ClipboardPayload.plainText "hello")).sprites = [] ∧
      (handlePaste { blocks := [], selectedBlockIds := [] } { x := 7, y := 9 } 1000 800
        (ClipboardPayload.plainText "hello")).textBoxes =
          [{ x := 7, y := 9, boxWidth := 200, boxHeight := 100 }]) :=
  have h := paste_image_viewport_sprite { blocks := [], selectedBlockIds := [] }
    { x := 7, y := 9 } 1000 800 600 300 "hello" (ClipboardPayload.plainText "hello")
    (by norm_num) (by norm_num) (by norm_num) (by norm_num)
  ⟨h.1, h.2.1, h.2.2.1, h.2.2.2 (by decide) (by decide)⟩

lemma selectionConsistent_selectBlock (s : BlocksState) (id : String) (m : Bool) :
    selectionConsistent (selectBlock s id m) = true := by
  simp only [selectionConsistent, selectBlock, List.all_eq_true, List.mem_map]
  rintro b2 ⟨b, hb, rfl⟩
  simp

lemma selectionConsistent_deselectAll (s : BlocksState) :
    selectionConsistent (deselectAll s) = true := by
  simp only [selectionConsistent, deselectAll, List.all_eq_true, List.mem_map]
  rintro b2 ⟨b, hb, rfl⟩
  simp

lemma selectionConsistent_addBlock (s : BlocksState) (b : Block)
    (hsel : b.selected = false) (hfresh : s.selectedBlockIds.contains b.id = false)
    (hc : selectionConsistent s = true) : selectionConsistent (addBlock s b) = true := by
  simp only [selectionConsistent, addBlock, List.all_eq_true, List.mem_append,
    List.mem_singleton] at hc ⊢
  rintro b2 (hb2 | rfl)
  · exact hc b2 hb2
  · have hmem : b2.id ∉ s.selectedBlockIds := by simpa using hfresh
    simp [hsel, hmem]

lemma selectionConsistent_deleteBlock (s : BlocksState) (id : String)
    (hc : selectionConsistent s = true) : selectionConsistent (deleteBlock s id) = true := by
  simp only [selectionConsistent, deleteBlock, List.all_eq_true, List.mem_filter] at hc ⊢
  rintro b2 ⟨hb2, hne⟩
  rw [contains_setDelete_of_ne (by simpa using hne)]
  exact hc b2 hb2

lemma selectionConsistent_moveBlock (s : BlocksState) (id : String) (x y : ℚ)
    (hc : selectionConsistent s = true) : selectionConsistent (moveBlock s id x y) = true := by
  simp only [selectionConsistent, moveBlock, List.all_eq_true, List.mem_map] at hc ⊢
  rintro b2 ⟨b, hb, rfl⟩
  by_cases hid : (b.id == id) = true
  · simpa [hid] using hc b hb
  · simpa [hid] using hc b hb

lemma selectionConsistent_resizeBlock (s : BlocksState) (id : String) (w h : ℚ)
    (hc : selectionConsistent s = true) : selectionConsistent (resizeBlock s id w h) = true := by
  simp only [selectionConsistent, resizeBlock, List.all_eq_true, List.mem_map] at hc ⊢
  rintro b2 ⟨b, hb, rfl⟩
  by_cases hid : (b.id == id) = true
  · simpa [hid] using hc b hb
  · simpa [hid] using hc b hb

/-- C10: along any sequence of store operations whose adds insert
    helper-created-style blocks (selected false, fresh id), every block's
    selected flag stays equal to membership of its id in selectedBlockIds. -/
theorem selection_flag_matches_set (ops : List StoreOp) (s : BlocksState)
    (hc : selectionConsistent s = true) (hf : freshAdds s ops = true) :
    selectionConsistent (applyOps s ops) = true := by
  induction ops generalizing s with
  | nil => simpa [applyOps] using hc
  | cons op rest ih =>
      rw [applyOps]
      cases op with
      | add b =>
          simp only [freshAdds, Bool.and_eq_true] at hf
          exact ih _ (selectionConsistent_addBlock s b (by simpa using hf.1.1)
            (by simpa using hf.1.2) hc) hf.2
      | select id multi =>
          simp only [freshAdds] at hf
          exact ih _ (selectionConsistent_selectBlock s id multi) hf
      | deselect =>
          simp only [freshAdds] at hf
          exact ih _ (selectionConsistent_deselectAll s) hf
      | delete id =>
          simp only [freshAdds] at hf
          exact ih _ (selectionConsistent_deleteBlock s id hc) hf
      | move id x y =>
          simp only [freshAdds] at hf
          exact ih _ (selectionConsistent_moveBlock s id x y hc) hf
      | resize id w h =>
          simp only [freshAdds] at hf
          exact ih _ (selectionConsistent_resizeBlock s id w h hc) hf

/-- C10 witness: a concrete operation run from the initial empty store. -/
theorem selection_flag_matches_set_witness :
    selectionConsistent (applyOps { blocks := [], selectedBlockIds := [] }
      [StoreOp.add (createTextBlock "b1" 0 0 "x"),
       StoreOp.select "b1" false,
       StoreOp.add (createTextBlock "b2" 0 0 "y"),
       StoreOp.select "b2" true,
       StoreOp.move "b1" 5 5,
       StoreOp.resize "b2" 10 20,
       StoreOp.delete "b1",
       StoreOp.deselect]) = true :=
  selection_flag_matches_set
    [StoreOp.add (createTextBlock "b1" 0 0 "x"),
     StoreOp.select "b1" false,
     StoreOp.add (createTextBlock "b2" 0 0 "y"),
     StoreOp.select "b2" true,
     StoreOp.move "b1" 5 5,
     StoreOp.resize "b2" 10 20,
     StoreOp.delete "b1",
     StoreOp.deselect]
    { blocks := [], selectedBlockIds := [] } (by decide) (by decide)

end Twine
